import Mathlib

set_option maxHeartbeats 1000000

/-!
Verification of the V3D NIR io lowering pass
(`src/broadcom/compiler/v3d_nir_lower_io.c`).

The definitions below are a shallow embedding of the pass: pure C helpers
become Lean functions, the geometry-shader accumulator variables become an
explicit state record, the physical VPM writes produced by the lowering
become explicit lists, and the C `assert` in `reset_gs_header` becomes an
`Except` error.  Machine integers are modelled as `Nat` with explicit
`% 2^32` where 32-bit overflow matters.
-/

namespace V3D

/-- Compile environments distinguished by the pass (`enum v3d_environment`:
`V3D_ENVIRONMENT_OPENGL` and `V3D_ENVIRONMENT_VULKAN`). -/
inductive Env where
  | opengl
  | vulkan
deriving DecidableEq

/-- Modelled from the spec: numeric tag of the clip-space position location
(`VARYING_SLOT_POS` of the external mesa `gl_varying_slot` enum, which is not
part of `src/`); only its distinctness from the other tags matters here. -/
def VARYING_SLOT_POS : Nat := 0

/-- Modelled from the spec: numeric tag of the point-size location
(`VARYING_SLOT_PSIZ` of the external mesa `gl_varying_slot` enum). -/
def VARYING_SLOT_PSIZ : Nat := 12

/-- Modelled from the spec: numeric tag of the array-layer location
(`VARYING_SLOT_LAYER` of the external mesa `gl_varying_slot` enum). -/
def VARYING_SLOT_LAYER : Nat := 22

/-- Entry of the consumer-supplied used-outputs table
(`struct v3d_varying_slot`, read through `v3d_slot_get_slot` and
`v3d_slot_get_component`). -/
structure VaryingSlot where
  slot : Nat
  component : Nat
deriving DecidableEq

/-- Embedding of `v3d_varying_slot_vpm_offset`: scan the used-outputs table
in caller order and return the index of the first entry matching
`(location, component)`.  The C function returns `-1` when no entry matches;
that sentinel is modelled as `none`. -/
def v3d_varying_slot_vpm_offset (used_outputs : List VaryingSlot)
    (location component : Nat) : Option Nat :=
  match used_outputs with
  | [] => none
  | s :: rest =>
    if s.slot = location ∧ s.component = component then
      some 0
    else
      (v3d_varying_slot_vpm_offset rest location component).map (· + 1)

/-- A `store_output` intrinsic as seen by `v3d_nir_lower_vpm_output`:
semantic location, starting component, number of source components, write
mask, and the value of `src[1]` when it is a compile-time constant
(`nir_src_is_const` / `nir_src_as_uint`). -/
structure StoreOutput where
  location : Nat
  component : Nat
  num_components : Nat
  write_mask : Nat
  src1_const : Option Nat
deriving DecidableEq

/-- Value carried by a physical VPM write emitted while lowering one
`store_output`: either one scalarized channel of the store's source, or the
full source value (the point-size fixed-function write stores `src`
unscalarized). -/
inductive OutVal where
  | srcChan (i : Nat)
  | fullSrc
deriving DecidableEq

/-- One physical VPM write produced by the lowering: the compile-time base
passed to `v3d_nir_store_output` plus the written value.  For geometry
shaders the runtime `output_offset` register is additionally added to every
base at the IR level; that register is common to all writes of one store and
is tracked separately by the geometry state machine. -/
structure PhysWrite where
  base : Nat
  val : OutVal
deriving DecidableEq

/-- One iteration of the scalarization loop of `v3d_nir_lower_vpm_output`:
for component `i`, look the `(location, start_component + i)` pair up in the
used-outputs table; skip the component when it is not covered by the write
mask or absent from the table; otherwise add `4 *` the constant `src[1]`
offset to the found index and write channel `i` at
`varyings_vpm_offset +` that adjusted index. -/
def v3d_nir_lower_vpm_output_scalarize (used_outputs : List VaryingSlot)
    (varyings_vpm_offset : Nat) (s : StoreOutput) (i : Nat) :
    Option PhysWrite :=
  match v3d_varying_slot_vpm_offset used_outputs s.location
      (s.component + i) with
  | none => none
  | some off =>
    if s.write_mask.testBit i then
      some ⟨varyings_vpm_offset + (off + 4 * s.src1_const.getD 0),
            OutVal.srcChan i⟩
    else
      none

/-- Physical VPM writes emitted by `v3d_nir_lower_vpm_output` for one
`store_output`: the fixed-function point-size write (when the location is
`VARYING_SLOT_PSIZ` and a point-size slot exists) followed by the writes of
the scalarization loop over the components. -/
def v3d_nir_lower_vpm_output_writes (used_outputs : List VaryingSlot)
    (psiz_vpm_offset : Option Nat) (varyings_vpm_offset : Nat)
    (s : StoreOutput) : List PhysWrite :=
  (if s.location = VARYING_SLOT_PSIZ then
    match psiz_vpm_offset with
    | some p => [⟨p, OutVal.fullSrc⟩]
    | none => []
  else []) ++
  (List.range s.num_components).filterMap
    (v3d_nir_lower_vpm_output_scalarize used_outputs varyings_vpm_offset s)

/-- Position-buffer update performed by `v3d_nir_lower_vpm_output`: when the
location is `VARYING_SLOT_POS`, channel `i` of the source is saved into
`state->pos[start_comp + i]` for every source component (the write mask is
not consulted by this loop in the C code). -/
def v3d_nir_lower_vpm_output_posbuf (s : StoreOutput)
    (pos : Nat → Option OutVal) : Nat → Option OutVal :=
  if s.location = VARYING_SLOT_POS then
    fun j =>
      if s.component ≤ j ∧ j < s.component + s.num_components then
        some (OutVal.srcChan (j - s.component))
      else
        pos j
  else
    pos

/-- Signed 32-bit reinterpretation of a bit pattern, used to model NIR's
signed comparison `nir_ige`. -/
def int32_of_bits (x : Nat) : Int :=
  if x % 2 ^ 32 < 2 ^ 31 then ((x % 2 ^ 32 : Nat) : Int)
  else ((x % 2 ^ 32 : Nat) : Int) - 2 ^ 32

/-- Embedding of `nir_ige a b`: signed 32-bit greater-or-equal. -/
def nir_ige (a b : Nat) : Bool :=
  decide (int32_of_bits b ≤ int32_of_bits a)

/-- Header update performed by `v3d_nir_lower_vpm_output` for a store to
`VARYING_SLOT_LAYER`: mask the current header with `0xff00ffff`, then OR in
`0` when `layer >= fb_layers` (signed compare, `nir_ige`) and `layer << 16`
(32-bit shift) otherwise. -/
def v3d_nir_lower_vpm_output_layer (header layer fb_layers : Nat) : Nat :=
  let masked := header &&& 0xff00ffff
  let layer_id := if nir_ige layer fb_layers then 0 else (layer <<< 16) % 2 ^ 32
  masked ||| layer_id

/-- The three geometry-shader accumulator variables created by
`emit_gs_prolog` (`output_offset`, `header_offset`, `header`), modelled as a
concrete state record of 32-bit words. -/
structure GSState where
  output_offset : Nat
  header_offset : Nat
  header : Nat
deriving DecidableEq

/-- Embedding of `reset_gs_header`: asserts that `vertex_data_size` fits in
its 8-bit field (the C `assert((vertex_data_size & 0xffffff00) == 0)`, a
fatal abort modelled as `Except.error`) and stores
`1 << NEW_PRIMITIVE_OFFSET | vertex_data_size << VERTEX_DATA_LENGTH_OFFSET`
(offsets 0 and 8) into the header variable. -/
def reset_gs_header (vertex_data_size : Nat) (st : GSState) :
    Except String GSState :=
  if vertex_data_size &&& 0xffffff00 ≠ 0 then
    Except.error "assert(!(vertex_data_size & 0xffffff00)) failed"
  else
    Except.ok { st with header := 1 ||| (vertex_data_size <<< 8) }

/-- Embedding of the state-transition part of `v3d_nir_lower_emit_vertex`:
the lowering writes the current header word to VPM address `header_offset`
(returned as the `(address, value)` pair), then advances `output_offset` by
`vertex_data_size` and `header_offset` by `1` (32-bit `iadd_imm`) and clears
bit 0 (the new-primitive bit) of the header.  The fixed-function outputs
emitted for the vertex by the same lowering are modelled by
`v3d_nir_emit_ff_vpm_outputs`. -/
def v3d_nir_lower_emit_vertex (vertex_data_size : Nat) (st : GSState) :
    GSState × (Nat × Nat) :=
  (⟨(st.output_offset + vertex_data_size) % 2 ^ 32,
    (st.header_offset + 1) % 2 ^ 32,
    st.header &&& 0xfffffffe⟩,
   (st.header_offset, st.header))

/-- Pass state filled in by `v3d_nir_setup_vpm_layout_vs`: the five
fixed-function slot offsets (C uses `int` with sentinel `-1`, modelled as
`Option Nat`), the first slot of the varying region and the published total
VPM output size. -/
structure VsLayout where
  pos_vpm_offset : Option Nat
  vp_vpm_offset : Option Nat
  zs_vpm_offset : Option Nat
  rcp_wc_vpm_offset : Option Nat
  psiz_vpm_offset : Option Nat
  varyings_vpm_offset : Nat
  vpm_output_size : Nat
deriving DecidableEq

/-- Embedding of `v3d_nir_setup_vpm_layout_vs`: sequential slot allocation
for the vertex stage.  When the shader is not the last geometry stage no
fixed-function output is allocated; otherwise position (4 slots, coordinate
variant only), viewport XY (2 slots), depth and reciprocal-W (1 slot each,
non-coordinate variant only) and point size (1 slot, when per-vertex point
size is enabled) are placed in that order.  The published size is
`MAX2(1, vpm_offset + num_used_outputs)`. -/
def v3d_nir_setup_vpm_layout_vs (is_last_geometry_stage is_coord
    per_vertex_point_size : Bool) (num_used_outputs : Nat) : VsLayout :=
  if is_last_geometry_stage then
    let pos := if is_coord then some 0 else none
    let o1 := if is_coord then 4 else 0
    let vp := some o1
    let o2 := o1 + 2
    let zs := if is_coord then none else some o2
    let rcp_wc := if is_coord then none else some (o2 + 1)
    let o3 := if is_coord then o2 else o2 + 2
    let psiz := if per_vertex_point_size then some o3 else none
    let o4 := if per_vertex_point_size then o3 + 1 else o3
    ⟨pos, vp, zs, rcp_wc, psiz, o4, max 1 (o4 + num_used_outputs)⟩
  else
    ⟨none, none, none, none, none, 0, max 1 (0 + num_used_outputs)⟩

/-- Value carried by a VPM write emitted by `v3d_nir_emit_ff_vpm_outputs`:
a raw position channel, a viewport-transformed XY channel, the depth value,
the reciprocal of W, or the zero written to an unstored varying slot. -/
inductive FFVal where
  | posChan (i : Nat)
  | vpXY (i : Nat)
  | zs
  | rcpW
  | zeroFill
deriving DecidableEq

/-- Embedding of `v3d_nir_emit_ff_vpm_outputs` as the list of
`(base, value)` VPM writes it produces: four raw position channels when a
position slot exists, two viewport-transformed channels when a viewport slot
exists, depth and reciprocal-W when their slots exist, and finally a zero
write at `varyings_vpm_offset + i` for every `i < num_used_outputs` whose
bit is not set in the `varyings_stored` bit set. -/
def v3d_nir_emit_ff_vpm_outputs (pos_vpm_offset vp_vpm_offset zs_vpm_offset
    rcp_wc_vpm_offset : Option Nat) (varyings_stored : Nat)
    (num_used_outputs varyings_vpm_offset : Nat) : List (Nat × FFVal) :=
  (match pos_vpm_offset with
   | some p => (List.range 4).map (fun i => (p + i, FFVal.posChan i))
   | none => []) ++
  (match vp_vpm_offset with
   | some v => [(v, FFVal.vpXY 0), (v + 1, FFVal.vpXY 1)]
   | none => []) ++
  (match zs_vpm_offset with
   | some z => [(z, FFVal.zs)]
   | none => []) ++
  (match rcp_wc_vpm_offset with
   | some r => [(r, FFVal.rcpW)]
   | none => []) ++
  (List.range num_used_outputs).filterMap (fun i =>
    if varyings_stored.testBit i then none
    else some (varyings_vpm_offset + i, FFVal.zeroFill))

/-- Defining expression of the dynamic index of a uniform load: either an
SSA value produced elsewhere or an immediate-shift of such a value
(`nir_ishl_imm`). -/
inductive IdxE where
  | dyn (n : Nat)
  | shlImm (e : IdxE) (k : Nat)
deriving DecidableEq

/-- Embedding of `v3d_nir_lower_uniform`: in the Vulkan environment offsets
are already in bytes and the intrinsic is untouched; otherwise the static
base becomes `base * 16` and the dynamic index is wrapped in a left shift by
4. -/
def v3d_nir_lower_uniform (env : Env) (base : Nat) (idx : IdxE) :
    Nat × IdxE :=
  if env = Env.vulkan then (base, idx)
  else (base * 16, IdxE.shlImm idx 4)

/-- Instructions a compute shader can contain, as far as the dispatch in
`v3d_nir_lower_io_instr` distinguishes them.  The `emit_vertex` and
`end_primitive` intrinsics are geometry-only in valid NIR (they are modelled
by the geometry state machine above) and cannot occur in a compute shader,
so they are not part of this type. -/
inductive Instr where
  | load_input (location component : Nat)
  | load_uniform (base : Nat) (idx : IdxE)
  | store_output (s : StoreOutput)
  | other (tag : Nat)
deriving DecidableEq

/-- Embedding of `v3d_nir_lower_io_instr` for `MESA_SHADER_COMPUTE`:
`load_input` is untouched (the stage is neither vertex nor fragment),
`store_output` is untouched (the stage is neither vertex nor geometry),
every other intrinsic falls through the switch — except `load_uniform`,
which is passed to `v3d_nir_lower_uniform` in every stage. -/
def v3d_nir_lower_io_instr_cs (env : Env) (i : Instr) : Instr :=
  match i with
  | Instr.load_uniform base idx =>
    let r := v3d_nir_lower_uniform env base idx
    Instr.load_uniform r.1 r.2
  | i => i

/-- Embedding of `v3d_nir_lower_io` for a compute shader: no VPM layout is
set up, no geometry prolog and no vertex-stage epilogue is appended, and the
walk maps `v3d_nir_lower_io_instr` over the instruction stream. -/
def v3d_nir_lower_io_cs (env : Env) (instrs : List Instr) : List Instr :=
  instrs.map (v3d_nir_lower_io_instr_cs env)

/-- Result value of a lowered fragment `load_input` for one component:
either the original loaded value, a float immediate, or an immediate-minus
expression built by `nir_fsub_imm`. -/
inductive FVal where
  | input
  | imm (n : Nat)
  | subImm (a : Nat) (v : FVal)
deriving DecidableEq

/-- Embedding of `v3d_nir_lower_fragment_input`: in the OpenGL environment
the pass returns immediately (an earlier pass handles point coordinates
there).  Otherwise, when the input is recognized as the point-coordinate
built-in (variable lookup plus `util_varying_is_point_coord` against the
point-sprite mask, modelled by `is_point_coord`), components 0 and 1 are
forced to `0.0` unless rendering points, component 2 is forced to `0.0`,
component 3 is forced to `1.0`, and when the upper-left origin flag is set
the component-1 result is additionally replaced by `1.0 - result`. -/
def v3d_nir_lower_fragment_input (env : Env) (is_point_coord is_points
    point_coord_upper_left : Bool) (component : Nat) : FVal :=
  if env = Env.opengl then FVal.input
  else if is_point_coord then
    let r :=
      match component with
      | 0 => if is_points then FVal.input else FVal.imm 0
      | 1 => if is_points then FVal.input else FVal.imm 0
      | 2 => FVal.imm 0
      | 3 => FVal.imm 1
      | _ => FVal.input
    if point_coord_upper_left ∧ component = 1 then FVal.subImm 1 r else r
  else FVal.input

/-! Helper lemmas. -/

/-- A successful table lookup returns an in-range index whose entry carries
exactly the looked-up location and component. -/
theorem vpm_offset_get {used : List VaryingSlot} {location component i : Nat}
    (h : v3d_varying_slot_vpm_offset used location component = some i) :
    ∃ hl : i < used.length,
      (used.get ⟨i, hl⟩).slot = location ∧
      (used.get ⟨i, hl⟩).component = component := by
  induction used generalizing i with
  | nil => simp [v3d_varying_slot_vpm_offset] at h
  | cons s rest ih =>
    rw [v3d_varying_slot_vpm_offset] at h
    by_cases hc : s.slot = location ∧ s.component = component
    · rw [if_pos hc] at h
      cases h
      exact ⟨Nat.succ_pos _, hc.1, hc.2⟩
    · rw [if_neg hc, Option.map_eq_some'] at h
      obtain ⟨j, hj, rfl⟩ := h
      obtain ⟨hl, h1, h2⟩ := ih hj
      exact ⟨Nat.succ_lt_succ hl, h1, h2⟩

/-- Two successful lookups with the same location that return the same index
were looking up the same component. -/
theorem vpm_offset_comp_inj {used : List VaryingSlot} {location c1 c2 i : Nat}
    (h1 : v3d_varying_slot_vpm_offset used location c1 = some i)
    (h2 : v3d_varying_slot_vpm_offset used location c2 = some i) : c1 = c2 := by
  obtain ⟨hl1, _, hc1⟩ := vpm_offset_get h1
  obtain ⟨hl2, _, hc2⟩ := vpm_offset_get h2
  rw [← hc1, hc2]

/-- Bits 8 and above of a value below 256 are clear, so masking with
`0xffffff00` yields zero. -/
theorem land_hi_eq_zero {v : Nat} (h : v < 256) : v &&& 0xffffff00 = 0 := by
  apply Nat.eq_of_testBit_eq
  intro j
  rw [Nat.testBit_and, Nat.zero_testBit]
  rcases Nat.lt_or_ge j 8 with hj | hj
  · have hm : (0xffffff00 : Nat).testBit j = false := by
      interval_cases j <;> decide
    rw [hm, Bool.and_false]
  · have h256 : (256 : Nat) ≤ 2 ^ j := by
      calc (256 : Nat) = 2 ^ 8 := by norm_num
        _ ≤ 2 ^ j := Nat.pow_le_pow_right (by norm_num) hj
    have hv : v.testBit j = false :=
      Nat.testBit_lt_two_pow (lt_of_lt_of_le h h256)
    rw [hv, Bool.false_and]

/-! Theorems for the claims. -/

/-- C2: for a vertex-stage shader, `v3d_nir_setup_vpm_layout_vs` leaves all
five fixed-function offsets absent with `varyings_base = 0` when the stage
is not the last geometry stage; otherwise it allocates position (4 slots,
coordinate variant only), viewport XY (2 slots), depth and reciprocal-W
(non-coordinate variant only) and point size (when enabled) in order, with
`varyings_base` the next free slot; the published size is
`max 1 (varyings_base + num_used_outputs)`.  In particular
`(true, false, false, 2)` yields position absent, viewport 0, depth 2,
reciprocal-W 3, `varyings_base` 4 and total size 6. -/
theorem c2_vpm_layout_vs (is_coord per_vertex_point_size : Bool)
    (num_used_outputs : Nat) :
    (v3d_nir_setup_vpm_layout_vs false is_coord per_vertex_point_size
        num_used_outputs =
      ⟨none, none, none, none, none, 0, max 1 num_used_outputs⟩) ∧
    (v3d_nir_setup_vpm_layout_vs true is_coord per_vertex_point_size
        num_used_outputs =
      ⟨if is_coord then some 0 else none,
       some (if is_coord then 4 else 0),
       if is_coord then none else some 2,
       if is_coord then none else some 3,
       if per_vertex_point_size then
         some (if is_coord then 6 else 4)
       else none,
       (if is_coord then 6 else 4) +
         (if per_vertex_point_size then 1 else 0),
       max 1 ((if is_coord then 6 else 4) +
         (if per_vertex_point_size then 1 else 0) + num_used_outputs)⟩) ∧
    (v3d_nir_setup_vpm_layout_vs true false false 2 =
      ⟨none, some 0, some 2, some 3, none, 4, 6⟩) := by
  cases is_coord <;> cases per_vertex_point_size <;>
    simp [v3d_nir_setup_vpm_layout_vs]

/-- C5 counterexample: the claim that the pass leaves a compute-stage
instruction stream entirely unchanged is false: in the OpenGL environment a
compute-stage `load_uniform` with base 1 is rewritten. -/
theorem c5_counterexample :
    v3d_nir_lower_io_cs Env.opengl [Instr.load_uniform 1 (IdxE.dyn 0)] ≠
      [Instr.load_uniform 1 (IdxE.dyn 0)] := by decide

/-- C5 (amended): for a compute-stage shader the pass adds no layout, prolog
or epilogue and leaves every instruction unchanged except `load_uniform`,
which is rewritten by `v3d_nir_lower_uniform` exactly as in the other
stages; in the Vulkan environment that rewrite is the identity, so there the
stream is entirely unchanged. -/
theorem c5_compute_lowering (env : Env) (instrs : List Instr) :
    v3d_nir_lower_io_cs Env.vulkan instrs = instrs ∧
    (∀ i ∈ instrs,
      (∀ base idx, i ≠ Instr.load_uniform base idx) →
      v3d_nir_lower_io_instr_cs env i = i) ∧
    (∀ base idx,
      v3d_nir_lower_io_instr_cs env (Instr.load_uniform base idx) =
        Instr.load_uniform (v3d_nir_lower_uniform env base idx).1
          (v3d_nir_lower_uniform env base idx).2) := by
  refine ⟨?_, ?_, ?_⟩
  · have hid : ∀ i, v3d_nir_lower_io_instr_cs Env.vulkan i = i := by
      intro i
      cases i <;> simp [v3d_nir_lower_io_instr_cs, v3d_nir_lower_uniform]
    induction instrs with
    | nil => rfl
    | cons a l ih =>
      simp only [v3d_nir_lower_io_cs, List.map_cons, hid a]
      simpa [v3d_nir_lower_io_cs] using ih
  · intro i _ hne
    cases i with
    | load_uniform base idx => exact absurd rfl (hne base idx)
    | load_input l c => rfl
    | store_output s => rfl
    | other t => rfl
  · intro base idx
    rfl

/-- C5 witness: concrete compute streams, one under Vulkan (unchanged) and a
non-uniform instruction under OpenGL (unchanged). -/
theorem c5_compute_lowering_witness :
    v3d_nir_lower_io_cs Env.vulkan
        [Instr.load_uniform 1 (IdxE.dyn 0), Instr.other 3] =
      [Instr.load_uniform 1 (IdxE.dyn 0), Instr.other 3] ∧
    v3d_nir_lower_io_instr_cs Env.opengl (Instr.other 3) = Instr.other 3 :=
  ⟨(c5_compute_lowering Env.vulkan
      [Instr.load_uniform 1 (IdxE.dyn 0), Instr.other 3]).1,
   (c5_compute_lowering Env.opengl [Instr.other 3]).2.1 (Instr.other 3)
     (by decide) (fun base idx h => Instr.noConfusion h)⟩

/-- C6: a `load_uniform` with static base `B` and dynamic index `I` is left
unchanged in the Vulkan environment (byte-granular offsets already); in any
other environment the base becomes `B * 16` and the dynamic index becomes
`I <<< 4`; e.g. base 4 becomes 64 and index `x` becomes `x <<< 4`. -/
theorem c6_lower_uniform (env : Env) (base : Nat) (idx : IdxE)
    (h : env ≠ Env.vulkan) :
    v3d_nir_lower_uniform Env.vulkan base idx = (base, idx) ∧
    v3d_nir_lower_uniform env base idx = (base * 16, IdxE.shlImm idx 4) ∧
    v3d_nir_lower_uniform Env.opengl 4 (IdxE.dyn 0) =
      (64, IdxE.shlImm (IdxE.dyn 0) 4) := by
  refine ⟨rfl, ?_, by decide⟩
  simp [v3d_nir_lower_uniform, h]

/-- C6 witness: concrete instantiation at base 4, a dynamic index, and the
OpenGL environment. -/
theorem c6_lower_uniform_witness :
    v3d_nir_lower_uniform Env.vulkan 4 (IdxE.dyn 0) = (4, IdxE.dyn 0) ∧
    v3d_nir_lower_uniform Env.opengl 4 (IdxE.dyn 0) =
      (4 * 16, IdxE.shlImm (IdxE.dyn 0) 4) :=
  ⟨(c6_lower_uniform Env.opengl 4 (IdxE.dyn 0) (by decide)).1,
   (c6_lower_uniform Env.opengl 4 (IdxE.dyn 0) (by decide)).2.1⟩

/-- C7: for a fragment-stage point-coordinate load outside the OpenGL
environment, with `is_points = false` components 0 and 1 are forced to 0.0,
component 2 is forced to 0.0 and component 3 to 1.0; with
`point_coord_upper_left = true` the component-1 result is additionally
replaced by `1.0 -` the value it would otherwise have. -/
theorem c7_fragment_point_coord (upper_left : Bool) :
    v3d_nir_lower_fragment_input Env.vulkan true false upper_left 0 =
      FVal.imm 0 ∧
    v3d_nir_lower_fragment_input Env.vulkan true false false 1 =
      FVal.imm 0 ∧
    v3d_nir_lower_fragment_input Env.vulkan true false true 1 =
      FVal.subImm 1 (FVal.imm 0) ∧
    v3d_nir_lower_fragment_input Env.vulkan true false upper_left 2 =
      FVal.imm 0 ∧
    v3d_nir_lower_fragment_input Env.vulkan true false upper_left 3 =
      FVal.imm 1 ∧
    (∀ is_points : Bool,
      v3d_nir_lower_fragment_input Env.vulkan true is_points true 1 =
        FVal.subImm 1
          (v3d_nir_lower_fragment_input Env.vulkan true is_points false 1)) := by
  cases upper_left <;> decide

/-- C9: `reset_gs_header` requires `vertex_data_size` to fit in 8 bits: when
`vertex_data_size & 0xffffff00` is nonzero it aborts fatally (modelled as an
error, not a recoverable value), and under the precondition
`vertex_data_size < 256` the assertion-failure branch is unreachable and the
header is stored. -/
theorem c9_vertex_data_size_assert (st : GSState) (vertex_data_size : Nat) :
    (vertex_data_size &&& 0xffffff00 ≠ 0 →
      reset_gs_header vertex_data_size st =
        Except.error "assert(!(vertex_data_size & 0xffffff00)) failed") ∧
    (vertex_data_size < 256 →
      reset_gs_header vertex_data_size st =
        Except.ok { st with header := 1 ||| (vertex_data_size <<< 8) }) := by
  constructor
  · intro h
    simp [reset_gs_header, h]
  · intro h
    simp [reset_gs_header, land_hi_eq_zero h]

/-- C9 witness: concrete instantiations, an 8-bit size that passes the
assertion and a 9-bit size that aborts. -/
theorem c9_vertex_data_size_assert_witness :
    reset_gs_header 5 ⟨6, 1, 0⟩ =
      Except.ok { output_offset := 6, header_offset := 1,
                  header := 1 ||| (5 <<< 8) } ∧
    reset_gs_header 256 ⟨6, 1, 0⟩ =
      Except.error "assert(!(vertex_data_size & 0xffffff00)) failed" :=
  ⟨(c9_vertex_data_size_assert ⟨6, 1, 0⟩ 5).2 (by decide),
   (c9_vertex_data_size_assert ⟨6, 1, 0⟩ 256).1 (by decide)⟩

/-- The number 1 has no set bit above position 0. -/
theorem testBit_one_ne_zero {j : Nat} (h : j ≠ 0) :
    (1 : Nat).testBit j = false := by
  rcases j with _ | j
  · exact absurd rfl h
  · rw [Nat.testBit_add_one]
    simp

/-- Bits of a 32-bit value vanish from position 32 on. -/
theorem testBit_ge_32 {x j : Nat} (hx : x < 2 ^ 32) (hj : 32 ≤ j) :
    x.testBit j = false := by
  have hp : (2 : Nat) ^ 32 ≤ 2 ^ j := Nat.pow_le_pow_right (by norm_num) hj
  exact Nat.testBit_lt_two_pow (lt_of_lt_of_le hx hp)

/-- The new-primitive clearing mask keeps every bit from 1 to 31. -/
theorem testBit_clear_mask {j : Nat} (h1 : 1 ≤ j) (h2 : j < 32) :
    (0xfffffffe : Nat).testBit j = true := by
  interval_cases j <;> decide

/-- The layer mask keeps the low 16 bits. -/
theorem testBit_layer_mask_lo {j : Nat} (h : j < 16) :
    (0xff00ffff : Nat).testBit j = true := by
  interval_cases j <;> decide

/-- The layer mask clears bits 16 to 23. -/
theorem testBit_layer_mask_mid {j : Nat} (h1 : 16 ≤ j) (h2 : j < 24) :
    (0xff00ffff : Nat).testBit j = false := by
  interval_cases j <;> decide

/-- The layer mask keeps bits 24 to 31. -/
theorem testBit_layer_mask_hi {j : Nat} (h1 : 24 ≤ j) (h2 : j < 32) :
    (0xff00ffff : Nat).testBit j = true := by
  interval_cases j <;> decide

/-- C3: in a geometry-stage shader, the header reset stores a word with bit
0 set and `vertex_data_size` in bits 15:8, and each lowered emit-vertex
writes the current header word to VPM address `header_offset`, advances
`output_offset` by `vertex_data_size` and `header_offset` by 1, and clears
bit 0 of the header while leaving bits 15:8 unchanged. -/
theorem c3_gs_header_round_trip (vertex_data_size : Nat) (st : GSState)
    (hv : vertex_data_size < 256)
    (ho : st.output_offset + vertex_data_size < 2 ^ 32)
    (hh : st.header_offset + 1 < 2 ^ 32) :
    ∃ st1, reset_gs_header vertex_data_size st = Except.ok st1 ∧
      st1.output_offset = st.output_offset ∧
      st1.header_offset = st.header_offset ∧
      st1.header.testBit 0 = true ∧
      (∀ j, j < 8 → st1.header.testBit (8 + j) = vertex_data_size.testBit j) ∧
      (v3d_nir_lower_emit_vertex vertex_data_size st1).2 =
        (st1.header_offset, st1.header) ∧
      (v3d_nir_lower_emit_vertex vertex_data_size st1).1.output_offset =
        st1.output_offset + vertex_data_size ∧
      (v3d_nir_lower_emit_vertex vertex_data_size st1).1.header_offset =
        st1.header_offset + 1 ∧
      (v3d_nir_lower_emit_vertex vertex_data_size st1).1.header.testBit 0 =
        false ∧
      (∀ j, j < 8 →
        (v3d_nir_lower_emit_vertex vertex_data_size st1).1.header.testBit
          (8 + j) = st1.header.testBit (8 + j)) := by
  refine ⟨{ st with header := 1 ||| (vertex_data_size <<< 8) }, ?_, rfl, rfl,
    ?_, ?_, rfl, ?_, ?_, ?_, ?_⟩
  · exact (c9_vertex_data_size_assert st vertex_data_size).2 hv
  · simp
  · intro j hj
    have h1 : (1 : Nat).testBit (8 + j) = false := testBit_one_ne_zero (by omega)
    rw [Nat.testBit_or, h1, Bool.false_or, Nat.testBit_shiftLeft]
    simp
  · exact Nat.mod_eq_of_lt ho
  · exact Nat.mod_eq_of_lt hh
  · rw [v3d_nir_lower_emit_vertex]
    simp
  · intro j hj
    rw [v3d_nir_lower_emit_vertex]
    simp only [Nat.testBit_and]
    rw [testBit_clear_mask (by omega) (by omega), Bool.and_true]

/-- C3 witness: the spec's example with `vertex_data_size = 5` starting from
the prologue state. -/
theorem c3_gs_header_round_trip_witness :
    ∃ st1, reset_gs_header 5 ⟨6, 1, 0⟩ = Except.ok st1 ∧
      st1.output_offset = 6 ∧
      st1.header_offset = 1 ∧
      st1.header.testBit 0 = true ∧
      (∀ j, j < 8 → st1.header.testBit (8 + j) = (5 : Nat).testBit j) ∧
      (v3d_nir_lower_emit_vertex 5 st1).2 = (st1.header_offset, st1.header) ∧
      (v3d_nir_lower_emit_vertex 5 st1).1.output_offset =
        st1.output_offset + 5 ∧
      (v3d_nir_lower_emit_vertex 5 st1).1.header_offset =
        st1.header_offset + 1 ∧
      (v3d_nir_lower_emit_vertex 5 st1).1.header.testBit 0 = false ∧
      (∀ j, j < 8 →
        (v3d_nir_lower_emit_vertex 5 st1).1.header.testBit (8 + j) =
          st1.header.testBit (8 + j)) :=
  c3_gs_header_round_trip 5 ⟨6, 1, 0⟩ (by decide) (by decide) (by decide)

/-- C4: lowering a store to the array-layer output replaces the header by
its value masked with `0xff00ffff` OR-ed with 0 when `layer >= fb_layers`
and with `layer <<< 16` otherwise; in particular with framebuffer layer
count 2, layer 3 leaves bits 23:16 at 0 and layer 1 sets them to 1, in both
cases leaving all other header bits unchanged. -/
theorem c4_layer_clamp (header : Nat) (hh : header < 2 ^ 32) :
    (∀ layer fb_layers, nir_ige layer fb_layers = true →
      v3d_nir_lower_vpm_output_layer header layer fb_layers =
        (header &&& 0xff00ffff) ||| 0) ∧
    (∀ layer fb_layers, nir_ige layer fb_layers = false →
      v3d_nir_lower_vpm_output_layer header layer fb_layers =
        (header &&& 0xff00ffff) ||| ((layer <<< 16) % 2 ^ 32)) ∧
    (∀ j, j < 8 →
      (v3d_nir_lower_vpm_output_layer header 3 2).testBit (16 + j) = false) ∧
    (v3d_nir_lower_vpm_output_layer header 1 2).testBit 16 = true ∧
    (∀ j, 1 ≤ j → j < 8 →
      (v3d_nir_lower_vpm_output_layer header 1 2).testBit (16 + j) = false) ∧
    (∀ j, j < 16 ∨ 24 ≤ j →
      (v3d_nir_lower_vpm_output_layer header 3 2).testBit j =
        header.testBit j ∧
      (v3d_nir_lower_vpm_output_layer header 1 2).testBit j =
        header.testBit j) := by
  have hige32 : nir_ige 3 2 = true := by decide
  have hige12 : nir_ige 1 2 = false := by decide
  have h3 : v3d_nir_lower_vpm_output_layer header 3 2 =
      header &&& 0xff00ffff := by
    rw [v3d_nir_lower_vpm_output_layer]
    simp [hige32]
  have h1 : v3d_nir_lower_vpm_output_layer header 1 2 =
      (header &&& 0xff00ffff) ||| 65536 := by
    rw [v3d_nir_lower_vpm_output_layer]
    simp [hige12]
  refine ⟨?_, ?_, ?_, ?_, ?_, ?_⟩
  · intro layer fb_layers hige
    rw [v3d_nir_lower_vpm_output_layer]
    simp [hige]
  · intro layer fb_layers hige
    rw [v3d_nir_lower_vpm_output_layer]
    simp [hige]
  · intro j hj
    rw [h3, Nat.testBit_and,
      testBit_layer_mask_mid (by omega) (by omega), Bool.and_false]
  · rw [h1, Nat.testBit_or, Nat.testBit_and,
      testBit_layer_mask_mid (by omega) (by omega), Bool.and_false,
      Bool.false_or]
    decide
  · intro j hj1 hj2
    have h65536 : (65536 : Nat).testBit (16 + j) = false := by
      interval_cases j <;> decide
    rw [h1, Nat.testBit_or, Nat.testBit_and,
      testBit_layer_mask_mid (by omega) (by omega), Bool.and_false,
      Bool.false_or, h65536]
  · intro j hj
    rcases hj with hj | hj
    · have h65536 : (65536 : Nat).testBit j = false := by
        interval_cases j <;> decide
      constructor
      · rw [h3, Nat.testBit_and, testBit_layer_mask_lo hj, Bool.and_true]
      · rw [h1, Nat.testBit_or, Nat.testBit_and, testBit_layer_mask_lo hj,
          Bool.and_true, h65536, Bool.or_false]
    · rcases Nat.lt_or_ge j 32 with hj32 | hj32
      · have h65536 : (65536 : Nat).testBit j = false := by
          interval_cases j <;> decide
        constructor
        · rw [h3, Nat.testBit_and, testBit_layer_mask_hi hj hj32,
            Bool.and_true]
        · rw [h1, Nat.testBit_or, Nat.testBit_and,
            testBit_layer_mask_hi hj hj32, Bool.and_true, h65536,
            Bool.or_false]
      · have hmask : (0xff00ffff : Nat).testBit j = false :=
          testBit_ge_32 (by norm_num) hj32
        have h65536 : (65536 : Nat).testBit j = false :=
          testBit_ge_32 (by norm_num) hj32
        have hhdr : header.testBit j = false := testBit_ge_32 hh hj32
        constructor
        · rw [h3, Nat.testBit_and, hmask, Bool.and_false, hhdr]
        · rw [h1, Nat.testBit_or, Nat.testBit_and, hmask, Bool.and_false,
            h65536, Bool.or_false, hhdr]

/-- C4 witness: concrete header, the two layer examples of the claim. -/
theorem c4_layer_clamp_witness :
    (v3d_nir_lower_vpm_output_layer 0x12345678 1 2).testBit 16 = true ∧
    (v3d_nir_lower_vpm_output_layer 0x12345678 3 2).testBit 17 = false :=
  ⟨(c4_layer_clamp 0x12345678 (by norm_num)).2.2.2.1,
   (c4_layer_clamp 0x12345678 (by norm_num)).2.2.1 1 (by decide)⟩

/-- Every write produced by an iteration of the scalarization loop carries
the channel of its loop index, passed the write-mask test, and sits at the
varying base plus the looked-up index adjusted by the constant offset. -/
theorem scalarize_some {used : List VaryingSlot} {voff : Nat}
    {s : StoreOutput} {i : Nat} {w : PhysWrite}
    (h : v3d_nir_lower_vpm_output_scalarize used voff s i = some w) :
    w.val = OutVal.srcChan i ∧ s.write_mask.testBit i = true ∧
    ∃ off, v3d_varying_slot_vpm_offset used s.location (s.component + i) =
        some off ∧
      w.base = voff + (off + 4 * s.src1_const.getD 0) := by
  rw [v3d_nir_lower_vpm_output_scalarize] at h
  split at h
  · exact absurd h (by simp)
  · next off heq =>
    split at h
    · next hm =>
      cases h
      exact ⟨rfl, hm, off, heq, rfl⟩
    · exact absurd h (by simp)

/-- Two scalarization iterations can only produce the same write if they are
the same iteration: the written value records the loop index. -/
theorem scalarize_inj {used : List VaryingSlot} {voff : Nat}
    {s : StoreOutput} (a a' : Nat) (b : PhysWrite)
    (h : b ∈ v3d_nir_lower_vpm_output_scalarize used voff s a)
    (h' : b ∈ v3d_nir_lower_vpm_output_scalarize used voff s a') : a = a' := by
  rw [Option.mem_def] at h h'
  have hv := (scalarize_some h).1
  have hv' := (scalarize_some h').1
  rw [hv] at hv'
  exact OutVal.srcChan.inj hv'

/-- Every write of the point-size part of `v3d_nir_lower_vpm_output_writes`
carries the full source value. -/
theorem psiz_part_val {psiz_vpm_offset : Option Nat} {s : StoreOutput}
    {w : PhysWrite}
    (h : w ∈ (if s.location = VARYING_SLOT_PSIZ then
      match psiz_vpm_offset with
      | some p => [(⟨p, OutVal.fullSrc⟩ : PhysWrite)]
      | none => ([] : List PhysWrite)
    else [])) : w.val = OutVal.fullSrc := by
  split at h
  · cases psiz_vpm_offset with
    | none => simp at h
    | some p =>
      simp at h
      rw [h]
  · simp at h

/-- A member of a duplicate-free list is counted exactly once. -/
theorem count_eq_one_of_mem_of_nodup {α : Type} [BEq α] [LawfulBEq α]
    {l : List α} {a : α} (d : l.Nodup) (h : a ∈ l) : l.count a = 1 := by
  induction l with
  | nil => simp at h
  | cons b t ih =>
    rw [List.count_cons]
    rcases List.mem_cons.mp h with rfl | hmem
    · have hbt : a ∉ t := (List.nodup_cons.mp d).1
      rw [List.count_eq_zero.mpr hbt]
      simp
    · have hne : a ≠ b := by
        rintro rfl
        exact (List.nodup_cons.mp d).1 hmem
      rw [ih (List.nodup_cons.mp d).2 hmem]
      simp [Ne.symm hne]

/-- C8: on each invocation of the fixed-function output emitter (appended
once at the end of a vertex-stage function and invoked inside each lowered
emit-vertex of a geometry-stage function), every varying slot index
`i < num_used_outputs` not marked stored receives exactly one zero write at
`varyings_base + i`, and slot indices marked stored receive none. -/
theorem c8_zero_fill (pos_vpm_offset vp_vpm_offset zs_vpm_offset
    rcp_wc_vpm_offset : Option Nat) (varyings_stored : Nat)
    (num_used_outputs varyings_vpm_offset i : Nat)
    (hi : i < num_used_outputs) :
    (v3d_nir_emit_ff_vpm_outputs pos_vpm_offset vp_vpm_offset zs_vpm_offset
        rcp_wc_vpm_offset varyings_stored num_used_outputs
        varyings_vpm_offset).count
      (varyings_vpm_offset + i, FFVal.zeroFill) =
    if varyings_stored.testBit i then 0 else 1 := by
  rw [v3d_nir_emit_ff_vpm_outputs.eq_def]
  rw [List.count_append, List.count_append, List.count_append,
    List.count_append]
  have hpos : (match pos_vpm_offset with
      | some p => (List.range 4).map (fun k => (p + k, FFVal.posChan k))
      | none => ([] : List (Nat × FFVal))).count
      (varyings_vpm_offset + i, FFVal.zeroFill) = 0 := by
    cases pos_vpm_offset <;> simp [List.count_eq_zero]
  have hvp : (match vp_vpm_offset with
      | some v => [(v, FFVal.vpXY 0), (v + 1, FFVal.vpXY 1)]
      | none => ([] : List (Nat × FFVal))).count
      (varyings_vpm_offset + i, FFVal.zeroFill) = 0 := by
    cases vp_vpm_offset <;> simp [List.count_eq_zero]
  have hzs : (match zs_vpm_offset with
      | some z => [(z, FFVal.zs)]
      | none => ([] : List (Nat × FFVal))).count
      (varyings_vpm_offset + i, FFVal.zeroFill) = 0 := by
    cases zs_vpm_offset <;> simp [List.count_eq_zero]
  have hrcp : (match rcp_wc_vpm_offset with
      | some r => [(r, FFVal.rcpW)]
      | none => ([] : List (Nat × FFVal))).count
      (varyings_vpm_offset + i, FFVal.zeroFill) = 0 := by
    cases rcp_wc_vpm_offset <;> simp [List.count_eq_zero]
  rw [hpos, hvp, hzs, hrcp]
  by_cases hst : varyings_stored.testBit i
  · rw [if_pos hst]
    have hloop : ((List.range num_used_outputs).filterMap (fun j =>
        if varyings_stored.testBit j then none
        else some (varyings_vpm_offset + j, FFVal.zeroFill))).count
        (varyings_vpm_offset + i, FFVal.zeroFill) = 0 := by
      rw [List.count_eq_zero]
      intro hmem
      rw [List.mem_filterMap] at hmem
      obtain ⟨j, _, hj⟩ := hmem
      by_cases hstj : varyings_stored.testBit j
      · rw [if_pos hstj] at hj
        exact Option.noConfusion hj
      · rw [if_neg hstj] at hj
        have hfst : varyings_vpm_offset + j = varyings_vpm_offset + i :=
          congrArg Prod.fst (Option.some.inj hj)
        have hji : j = i := by omega
        rw [hji] at hstj
        exact hstj hst
    rw [hloop]
  · rw [if_neg hst]
    have hmem : (varyings_vpm_offset + i, FFVal.zeroFill) ∈
        (List.range num_used_outputs).filterMap (fun j =>
          if varyings_stored.testBit j then none
          else some (varyings_vpm_offset + j, FFVal.zeroFill)) := by
      rw [List.mem_filterMap]
      exact ⟨i, List.mem_range.mpr hi, by rw [if_neg hst]⟩
    have hnd : ((List.range num_used_outputs).filterMap (fun j =>
        if varyings_stored.testBit j then none
        else some (varyings_vpm_offset + j, FFVal.zeroFill))).Nodup := by
      refine List.Nodup.filterMap ?_ (List.nodup_range num_used_outputs)
      intro a a' b hb hb'
      rw [Option.mem_def] at hb hb'
      split at hb
      · exact Option.noConfusion hb
      · split at hb'
        · exact Option.noConfusion hb'
        · have ha := congrArg Prod.fst (Option.some.inj hb)
          have ha' := congrArg Prod.fst (Option.some.inj hb')
          simp only at ha ha'
          omega
    rw [count_eq_one_of_mem_of_nodup hnd hmem]

/-- C8 witness: layout of the claim's vertex-stage example with two used
outputs of which index 1 is stored: index 0 gets exactly one zero fill. -/
theorem c8_zero_fill_witness :
    (v3d_nir_emit_ff_vpm_outputs none (some 0) (some 2) (some 3) 2 2 4).count
      (4 + 0, FFVal.zeroFill) = 1 := by
  have h := c8_zero_fill none (some 0) (some 2) (some 3) 2 2 4 0 (by decide)
  simpa using h

/-- C1 counterexample: the claim that a masked component whose
`(location, component)` pair sits in the table receives its single physical
write at exactly `varyings_base + index` is false once the store carries a
nonzero constant offset source: with table `[(32, 0)]` (index 0),
`varyings_base = 4` and a store at location 32 with constant offset 1, no
write lands at slot `4 + 0`; the single write lands at slot 8. -/
theorem c1_counterexample :
    v3d_varying_slot_vpm_offset [⟨32, 0⟩] 32 0 = some 0 ∧
    Nat.testBit 1 0 = true ∧
    (v3d_nir_lower_vpm_output_writes [⟨32, 0⟩] none 4
        ⟨32, 0, 1, 1, some 1⟩).count ⟨4 + 0, OutVal.srcChan 0⟩ = 0 ∧
    v3d_nir_lower_vpm_output_writes [⟨32, 0⟩] none 4 ⟨32, 0, 1, 1, some 1⟩ =
      [⟨8, OutVal.srcChan 0⟩] := by decide

/-- C1 (amended): for every store-output in a vertex- or geometry-stage
shader and every component `i` covered by its write mask: if
`(location, start_component + i)` occurs in the used-outputs table at first
matching position `idx`, the lowering emits exactly one physical write
carrying channel `i`, at slot `varyings_base + idx + 4 * k` where `k` is the
store's constant offset source (0 when absent); if the pair is absent from
the table, no emitted physical write carries channel `i`. -/
theorem c1_table_routing (used : List VaryingSlot) (psiz_vpm_offset : Option Nat)
    (varyings_vpm_offset : Nat) (s : StoreOutput) (i : Nat)
    (hi : i < s.num_components) (hm : s.write_mask.testBit i = true) :
    (∀ idx, v3d_varying_slot_vpm_offset used s.location (s.component + i) =
        some idx →
      (v3d_nir_lower_vpm_output_writes used psiz_vpm_offset
          varyings_vpm_offset s).count
        ⟨varyings_vpm_offset + (idx + 4 * s.src1_const.getD 0),
         OutVal.srcChan i⟩ = 1 ∧
      (∀ w ∈ v3d_nir_lower_vpm_output_writes used psiz_vpm_offset
          varyings_vpm_offset s, w.val = OutVal.srcChan i →
        w = ⟨varyings_vpm_offset + (idx + 4 * s.src1_const.getD 0),
             OutVal.srcChan i⟩)) ∧
    (v3d_varying_slot_vpm_offset used s.location (s.component + i) = none →
      ∀ w ∈ v3d_nir_lower_vpm_output_writes used psiz_vpm_offset
          varyings_vpm_offset s, w.val ≠ OutVal.srcChan i) := by
  constructor
  · intro idx hl
    have hfi : v3d_nir_lower_vpm_output_scalarize used varyings_vpm_offset
        s i = some ⟨varyings_vpm_offset + (idx + 4 * s.src1_const.getD 0),
          OutVal.srcChan i⟩ := by
      rw [v3d_nir_lower_vpm_output_scalarize, hl]
      simp [hm]
    constructor
    · rw [v3d_nir_lower_vpm_output_writes.eq_def, List.count_append]
      have hP : (if s.location = VARYING_SLOT_PSIZ then
          match psiz_vpm_offset with
          | some p => [(⟨p, OutVal.fullSrc⟩ : PhysWrite)]
          | none => ([] : List PhysWrite)
        else []).count
          ⟨varyings_vpm_offset + (idx + 4 * s.src1_const.getD 0),
           OutVal.srcChan i⟩ = 0 := by
        rw [List.count_eq_zero]
        intro hmem
        have hv := psiz_part_val hmem
        exact absurd hv (by simp)
      have hS : ((List.range s.num_components).filterMap
          (v3d_nir_lower_vpm_output_scalarize used varyings_vpm_offset
            s)).count
          ⟨varyings_vpm_offset + (idx + 4 * s.src1_const.getD 0),
           OutVal.srcChan i⟩ = 1 := by
        apply count_eq_one_of_mem_of_nodup
        · refine List.Nodup.filterMap ?_ (List.nodup_range _)
          intro a a' b hb hb'
          exact scalarize_inj a a' b hb hb'
        · rw [List.mem_filterMap]
          exact ⟨i, List.mem_range.mpr hi, hfi⟩
      rw [hP, hS]
    · intro w hw hwv
      rw [v3d_nir_lower_vpm_output_writes.eq_def, List.mem_append] at hw
      rcases hw with hw | hw
      · have hv := psiz_part_val hw
        rw [hwv] at hv
        exact absurd hv (by simp)
      · rw [List.mem_filterMap] at hw
        obtain ⟨j, hjr, hj⟩ := hw
        have hvj := (scalarize_some hj).1
        rw [hwv] at hvj
        have hji : i = j := OutVal.srcChan.inj hvj
        rw [← hji] at hj
        rw [hfi] at hj
        exact (Option.some.inj hj).symm
  · intro hl w hw hwv
    rw [v3d_nir_lower_vpm_output_writes.eq_def, List.mem_append] at hw
    rcases hw with hw | hw
    · have hv := psiz_part_val hw
      rw [hwv] at hv
      exact absurd hv (by simp)
    · rw [List.mem_filterMap] at hw
      obtain ⟨j, hjr, hj⟩ := hw
      obtain ⟨hvj, hmj, off, hoff, hbase⟩ := scalarize_some hj
      rw [hwv] at hvj
      have hji : i = j := OutVal.srcChan.inj hvj
      rw [← hji] at hoff
      rw [hl] at hoff
      exact Option.noConfusion hoff

/-- C1 witness: store at location 32, one masked component matching table
index 0 with no constant offset: exactly one write at `varyings_base + 0`. -/
theorem c1_table_routing_witness :
    (v3d_nir_lower_vpm_output_writes [⟨32, 0⟩] none 4
        ⟨32, 0, 1, 1, none⟩).count ⟨4, OutVal.srcChan 0⟩ = 1 := by
  have h := (c1_table_routing [⟨32, 0⟩] none 4 ⟨32, 0, 1, 1, none⟩ 0
    (by decide) (by decide)).1 0 (by decide)
  simpa using h.1

/-- C10 counterexample: the claim that a store to the clip-space position
also emits its table-matched varying write at exactly
`varyings_base + index` is false once the store carries a nonzero constant
offset source: with table `[(POS, 0)]`, `varyings_base = 7` and constant
offset 1, no write lands at slot `7 + 0`; the single write lands at 11. -/
theorem c10_counterexample :
    v3d_varying_slot_vpm_offset [⟨0, 0⟩] VARYING_SLOT_POS 0 = some 0 ∧
    (v3d_nir_lower_vpm_output_writes [⟨0, 0⟩] none 7
        ⟨VARYING_SLOT_POS, 0, 1, 1, some 1⟩).count
      ⟨7 + 0, OutVal.srcChan 0⟩ = 0 ∧
    v3d_nir_lower_vpm_output_writes [⟨0, 0⟩] none 7
        ⟨VARYING_SLOT_POS, 0, 1, 1, some 1⟩ =
      [⟨11, OutVal.srcChan 0⟩] := by decide

/-- C10 (amended): a store-output whose location is the clip-space position
or point-size is not exempt from the varying-table rewrite: besides
buffering the position components (respectively emitting the point-size
fixed-function write), for every masked component `i` whose pair occurs in
the table at position `idx` the pass also emits a physical varying write at
`varyings_base + idx + 4 * k`, `k` being the store's constant offset source
(0 when absent). -/
theorem c10_pos_psiz_not_exempt (used : List VaryingSlot)
    (psiz_vpm_offset : Option Nat) (varyings_vpm_offset : Nat)
    (s : StoreOutput) (posbuf : Nat → Option OutVal) (i idx : Nat)
    (hloc : s.location = VARYING_SLOT_POS ∨ s.location = VARYING_SLOT_PSIZ)
    (hi : i < s.num_components) (hm : s.write_mask.testBit i = true)
    (hl : v3d_varying_slot_vpm_offset used s.location (s.component + i) =
      some idx) :
    ((⟨varyings_vpm_offset + (idx + 4 * s.src1_const.getD 0),
        OutVal.srcChan i⟩ : PhysWrite) ∈
      v3d_nir_lower_vpm_output_writes used psiz_vpm_offset
        varyings_vpm_offset s) ∧
    (s.location = VARYING_SLOT_POS → ∀ j, j < s.num_components →
      v3d_nir_lower_vpm_output_posbuf s posbuf (s.component + j) =
        some (OutVal.srcChan j)) ∧
    (s.location = VARYING_SLOT_PSIZ → ∀ p, psiz_vpm_offset = some p →
      (⟨p, OutVal.fullSrc⟩ : PhysWrite) ∈
        v3d_nir_lower_vpm_output_writes used psiz_vpm_offset
          varyings_vpm_offset s) := by
  have hfi : v3d_nir_lower_vpm_output_scalarize used varyings_vpm_offset
      s i = some ⟨varyings_vpm_offset + (idx + 4 * s.src1_const.getD 0),
        OutVal.srcChan i⟩ := by
    rw [v3d_nir_lower_vpm_output_scalarize, hl]
    simp [hm]
  refine ⟨?_, ?_, ?_⟩
  · rw [v3d_nir_lower_vpm_output_writes.eq_def, List.mem_append]
    right
    rw [List.mem_filterMap]
    exact ⟨i, List.mem_range.mpr hi, hfi⟩
  · intro hp j hj
    rw [v3d_nir_lower_vpm_output_posbuf, if_pos hp,
      if_pos ⟨Nat.le_add_right _ _, by omega⟩, Nat.add_sub_cancel_left]
  · intro hp p hpp
    rw [v3d_nir_lower_vpm_output_writes.eq_def, List.mem_append]
    left
    rw [if_pos hp, hpp]
    simp

/-- C10 witness: position store with table index 0, no constant offset: the
varying write at `varyings_base` is emitted and the position channel is
buffered. -/
theorem c10_pos_psiz_not_exempt_witness :
    ((⟨5, OutVal.srcChan 0⟩ : PhysWrite) ∈
      v3d_nir_lower_vpm_output_writes [⟨0, 0⟩] none 5 ⟨0, 0, 1, 1, none⟩) ∧
    v3d_nir_lower_vpm_output_posbuf ⟨0, 0, 1, 1, none⟩ (fun _ => none)
      (0 + 0) = some (OutVal.srcChan 0) := by
  have h := c10_pos_psiz_not_exempt [⟨0, 0⟩] none 5 ⟨0, 0, 1, 1, none⟩
    (fun _ => none) 0 0 (Or.inl rfl) (by decide) (by decide) (by decide)
  exact ⟨by simpa using h.1, h.2.1 rfl 0 (by decide)⟩

end V3D
